import Mathlib

/-!
Verification of the Insider acceptance-test harness
(src/Insider-test-success.py) and of the Kubernetes provisioning
controller (src/Node-count-automatic-k8s-resources.py), by a shallow
embedding of their control flow.

External driver and API effects are modelled by explicit environment
records fixing the outcome of each external call; Python exceptions are
modelled by explicit outcome constructors, and log statements by lists of
strings where a claim mentions them.
-/

/-- Outcome of one call to element.click inside BasePage.safe_click:
the click succeeds, raises ElementClickInterceptedException, or raises
some other exception. -/
inductive ClickOutcome where
  | success
  | intercepted
  | error
deriving DecidableEq, Repr

/-- Result of BasePage.safe_click: a returned boolean, or an exception
propagated to the caller (the bare raise on the final attempt). -/
inductive SafeClickResult where
  | ret (b : Bool)
  | raises
deriving DecidableEq, Repr

/-- Loop of BasePage.safe_click: for attempt in range(retry_attempts).
clickAt gives the outcome of element.click at each attempt index; the
first argument counts the remaining iterations, the second is the current
attempt index. ElementClickInterceptedException is caught (log, scroll
into view) and the loop continues; any other exception is caught, and
re-raised when attempt == retry_attempts - 1; falling out of the loop
returns False. -/
def safe_click_go (clickAt : Nat → ClickOutcome) (retry_attempts : Nat) :
    Nat → Nat → SafeClickResult
  | 0, _ => SafeClickResult.ret false
  | remaining + 1, attempt =>
    match clickAt attempt with
    | ClickOutcome.success => SafeClickResult.ret true
    | ClickOutcome.intercepted =>
        safe_click_go clickAt retry_attempts remaining (attempt + 1)
    | ClickOutcome.error =>
        if attempt = retry_attempts - 1 then SafeClickResult.raises
        else safe_click_go clickAt retry_attempts remaining (attempt + 1)

/-- BasePage.safe_click with an attempt budget (Python default 10). -/
def safe_click (clickAt : Nat → ClickOutcome) (retry_attempts : Nat) :
    SafeClickResult :=
  safe_click_go clickAt retry_attempts retry_attempts 0

/-- Environment of CareersPage.view_first_role: number of View Role
buttons found, the window handles and current handle before the click,
whether the click makes a new window appear within the wait, the handle
of that window, and whether its URL comes to contain jobs.lever.co. -/
structure ViewRoleEnv where
  numButtons : Nat
  windows : List Nat
  current : Nat
  clickOpensWindow : Bool
  newHandle : Nat
  leverUrlLoads : Bool
deriving DecidableEq, Repr

/-- Observable state after CareersPage.view_first_role: the returned
boolean, the window handle that is current afterwards, and the remaining
window handles. -/
structure ViewRoleResult where
  returned : Bool
  current : Nat
  windows : List Nat
deriving DecidableEq, Repr

/-- CareersPage.view_first_role. The paths, in source order: no buttons
found returns False; more than one window open before the click returns
False; the bounded wait for a second window timing out raises, which the
enclosing except converts to False with the current window unchanged;
after switching to the new window, a failed jobs.lever.co URL check
returns False while still switched to the new window; on success the new
window is closed and the original window becomes current again. -/
def view_first_role (env : ViewRoleEnv) : ViewRoleResult :=
  if env.numButtons = 0 then
    ⟨false, env.current, env.windows⟩
  else
    let original := env.current
    if env.windows.length ≠ 1 then
      ⟨false, env.current, env.windows⟩
    else
      let windows1 :=
        if env.clickOpensWindow then env.windows ++ [env.newHandle]
        else env.windows
      if windows1.length > 1 then
        match windows1.filter (fun w => w != original) with
        | [] => ⟨false, original, windows1⟩
        | new_window :: _ =>
          if env.leverUrlLoads then
            ⟨true, original, windows1.erase new_window⟩
          else
            ⟨false, new_window, windows1⟩
      else
        ⟨false, original, windows1⟩

/-- The provisioning controller; node_count is the stored replica count. -/
structure KubernetesTestController where
  node_count : Int
deriving DecidableEq, Repr

/-- KubernetesTestController.__init__: ensure node_count is between
1 and 5. -/
def KubernetesTestController.init (node_count : Int) :
    KubernetesTestController :=
  ⟨max 1 (min node_count 5)⟩

/-- Environment of page navigation: whether driver.get raises, and
whether the homepage landmark (navbar logo) becomes visible. -/
structure NavEnv where
  getRaises : Bool
  logoVisible : Bool
deriving DecidableEq, Repr

namespace HomePage

/-- HomePage.is_loaded: all([is_element_visible(logo)]). -/
def is_loaded (env : NavEnv) : Bool := env.logoVisible

/-- HomePage.navigate: driver.get(URL), then return is_loaded();
any exception is caught, logged, and converted to False. -/
def navigate (env : NavEnv) : Bool :=
  if env.getRaises then false else is_loaded env

end HomePage

namespace CareersPage

/-- CareersPage.navigate: driver.get(URL), then return True; any
exception is caught, logged, and converted to False. There is no
is-loaded verification. -/
def navigate (env : NavEnv) : Bool :=
  if env.getRaises then false else true

end CareersPage

/-- TestResult enumeration of verdicts. -/
inductive TestResult where
  | PASSED
  | FAILED
  | SKIPPED
deriving DecidableEq, Repr

/-- Outcome of invoking a test step's zero-argument operation: a returned
boolean, or a raised exception carrying its message text. -/
inductive StepOutcome where
  | ok (b : Bool)
  | exn (msg : String)
deriving DecidableEq, Repr

/-- TestStep dataclass: name, operation (modelled by the outcome of its
one invocation in the run), description. -/
structure TestStep where
  name : String
  outcome : StepOutcome
  description : String
deriving DecidableEq, Repr

/-- InsiderWebsiteTest.run_test_step: logs the step description, invokes
the operation, logs on a false result, and catches any exception, logging
the description together with the exception text and returning False.
Returns the boolean result paired with the emitted log lines. -/
def run_test_step (step : TestStep) : Bool × List String :=
  match step.outcome with
  | StepOutcome.ok b =>
    if b then (true, ["Executing step: " ++ step.description])
    else (false, ["Executing step: " ++ step.description,
                  "Step failed: " ++ step.description])
  | StepOutcome.exn msg =>
    (false, ["Executing step: " ++ step.description,
             "Step failed with exception: " ++ step.description ++ "\n" ++ msg])

/-- The for-loop shared by test_homepage_loading and
test_qa_jobs_filtering: run the steps in order, stopping at the first one
whose run_test_step result is false. Returns whether all steps passed and
how many steps were executed. -/
def runCaseSteps : List TestStep → Bool × Nat
  | [] => (true, 0)
  | step :: rest =>
    if (run_test_step step).1 then
      ((runCaseSteps rest).1, (runCaseSteps rest).2 + 1)
    else
      (false, 1)

/-- Body of a test-case method: run the steps; on the first failure record
FAILED for the case and return False, otherwise record PASSED and return
True. The verdict mapping is modelled as an insertion-ordered association
list. -/
def run_test_case (caseName : String) (steps : List TestStep)
    (results : List (String × TestResult)) :
    Bool × List (String × TestResult) :=
  if (runCaseSteps steps).1 then
    (true, results ++ [(caseName, TestResult.PASSED)])
  else
    (false, results ++ [(caseName, TestResult.FAILED)])

/-- Outcomes of the page operations behind the ten test steps of a run:
four homepage steps and six careers steps, in source order. -/
structure RunEnv where
  navigate_home : StepOutcome
  verify_loaded : StepOutcome
  company_menu : StepOutcome
  careers_menu : StepOutcome
  navigate_careers : StepOutcome
  accept_cookies : StepOutcome
  see_all_qa_jobs : StepOutcome
  select_location : StepOutcome
  select_department : StepOutcome
  view_role_step : StepOutcome
deriving DecidableEq, Repr

/-- The fixed step list of InsiderWebsiteTest.test_homepage_loading. -/
def homepage_steps (env : RunEnv) : List TestStep :=
  [⟨"navigate", env.navigate_home, "Navigating to homepage"⟩,
   ⟨"verify", env.verify_loaded, "Verifying homepage loaded"⟩,
   ⟨"company_menu", env.company_menu, "Clicking Company menu"⟩,
   ⟨"careers_menu", env.careers_menu, "Clicking Careers menu"⟩]

/-- The fixed step list of InsiderWebsiteTest.test_qa_jobs_filtering. -/
def qa_steps (env : RunEnv) : List TestStep :=
  [⟨"navigate", env.navigate_careers, "Navigating to careers page"⟩,
   ⟨"cookies", env.accept_cookies, "Accepting cookies"⟩,
   ⟨"qa_jobs", env.see_all_qa_jobs, "Clicking See all QA jobs"⟩,
   ⟨"location", env.select_location, "Selecting location"⟩,
   ⟨"department", env.select_department, "Selecting department"⟩,
   ⟨"view_role", env.view_role_step, "Viewing first role"⟩]

/-- InsiderWebsiteTest.test_homepage_loading. -/
def test_homepage_loading (env : RunEnv)
    (results : List (String × TestResult)) :
    Bool × List (String × TestResult) :=
  run_test_case "Homepage Test" (homepage_steps env) results

/-- InsiderWebsiteTest.test_qa_jobs_filtering. -/
def test_qa_jobs_filtering (env : RunEnv)
    (results : List (String × TestResult)) :
    Bool × List (String × TestResult) :=
  run_test_case "QA Jobs Test" (qa_steps env) results

/-- Session and case lifecycle events of a run. -/
inductive RunEvent where
  | createDriver
  | caseStart (caseName : String)
  | driverQuit
deriving DecidableEq, Repr

/-- Observable result of run_tests: the ordered lifecycle events and the
verdict mapping. -/
structure RunResult where
  events : List RunEvent
  results : List (String × TestResult)
deriving DecidableEq, Repr

/-- run_tests: InsiderWebsiteTest(headless) creates the browser session
in its constructor, before the try block; the two test cases then run in
order inside try (run_test_step absorbs every step exception, so neither
case raises); the finally block calls teardown, which quits the driver
once. -/
def run_tests (env : RunEnv) : RunResult :=
  let r1 := test_homepage_loading env []
  let r2 := test_qa_jobs_filtering env r1.2
  { events := [RunEvent.createDriver, RunEvent.caseStart "Homepage Test",
               RunEvent.caseStart "QA Jobs Test", RunEvent.driverQuit],
    results := r2.2 }

/-- Default TestStep used only to make positional list access total. -/
def defaultStep : TestStep := ⟨"", StepOutcome.ok true, ""⟩

/-- RunEnv in which the first homepage step raises and all other step
operations return True. -/
def envHomeRaises : RunEnv :=
  ⟨StepOutcome.exn "boom", StepOutcome.ok true, StepOutcome.ok true,
   StepOutcome.ok true, StepOutcome.ok true, StepOutcome.ok true,
   StepOutcome.ok true, StepOutcome.ok true, StepOutcome.ok true,
   StepOutcome.ok true⟩

/-- RunEnv in which every step operation returns True. -/
def envAllPass : RunEnv :=
  ⟨StepOutcome.ok true, StepOutcome.ok true, StepOutcome.ok true,
   StepOutcome.ok true, StepOutcome.ok true, StepOutcome.ok true,
   StepOutcome.ok true, StepOutcome.ok true, StepOutcome.ok true,
   StepOutcome.ok true⟩

/-- The create-resource calls issued to the cluster-orchestration API. -/
inductive ApiCall where
  | createChromeDeployment
  | createChromeService
  | createChromeHPA
  | createSeleniumDeployment
deriving DecidableEq, Repr

/-- Whether each create call raises ApiException. -/
structure K8sEnv where
  chromeDeploymentFails : Bool
  chromeServiceFails : Bool
  chromeHPAFails : Bool
  seleniumFails : Bool
deriving DecidableEq, Repr

/-- Process outcome of a provisioning step: normal completion, or
sys.exit with the given status code. -/
inductive DeployOutcome where
  | ok
  | exited (code : Nat)
deriving DecidableEq, Repr

/-- KubernetesTestController.deploy_chrome: creates the chrome deployment
(replicas = the stored node_count), the chrome service, and the chrome
HPA, in order, inside one try; an ApiException from any of them is logged
and answered by sys.exit(1). Returns the outcome and the trace of create
calls issued. -/
def deploy_chrome (env : K8sEnv) : DeployOutcome × List ApiCall :=
  if env.chromeDeploymentFails then
    (DeployOutcome.exited 1, [ApiCall.createChromeDeployment])
  else if env.chromeServiceFails then
    (DeployOutcome.exited 1,
     [ApiCall.createChromeDeployment, ApiCall.createChromeService])
  else if env.chromeHPAFails then
    (DeployOutcome.exited 1,
     [ApiCall.createChromeDeployment, ApiCall.createChromeService,
      ApiCall.createChromeHPA])
  else
    (DeployOutcome.ok,
     [ApiCall.createChromeDeployment, ApiCall.createChromeService,
      ApiCall.createChromeHPA])

/-- KubernetesTestController.deploy_selenium_test: creates the selenium
test deployment; an ApiException is logged and answered by sys.exit(1). -/
def deploy_selenium_test (env : K8sEnv) : DeployOutcome × List ApiCall :=
  if env.seleniumFails then
    (DeployOutcome.exited 1, [ApiCall.createSeleniumDeployment])
  else
    (DeployOutcome.ok, [ApiCall.createSeleniumDeployment])

/-- KubernetesTestController.deploy_resources: deploy_chrome then
deploy_selenium_test; an exit in the first stops the process before the
second runs. -/
def deploy_resources (env : K8sEnv) : DeployOutcome × List ApiCall :=
  match deploy_chrome env with
  | (DeployOutcome.exited code, trace) => (DeployOutcome.exited code, trace)
  | (DeployOutcome.ok, trace) =>
    match deploy_selenium_test env with
    | (o, trace2) => (o, trace ++ trace2)

/-- If every attempt in the window raises the obstruction failure, the
safe_click loop falls through and returns false. -/
theorem safe_click_go_all_intercepted (clickAt : Nat → ClickOutcome)
    (K : Nat) :
    ∀ remaining attempt,
      (∀ i, attempt ≤ i → i < attempt + remaining →
        clickAt i = ClickOutcome.intercepted) →
      safe_click_go clickAt K remaining attempt = SafeClickResult.ret false := by
  intro remaining
  induction remaining with
  | zero => intro attempt _; rfl
  | succ r ih =>
    intro attempt h
    have h0 : clickAt attempt = ClickOutcome.intercepted :=
      h attempt (Nat.le_refl _) (by omega)
    simp only [safe_click_go, h0]
    exact ih (attempt + 1) (fun i hi1 hi2 => h i (by omega) (by omega))

/-- If the click succeeds at offset j inside the attempt window, all
earlier attempts raising only the obstruction failure, the safe_click
loop returns true. -/
theorem safe_click_go_succeeds (clickAt : Nat → ClickOutcome) (K : Nat) :
    ∀ j remaining attempt, j < remaining →
      clickAt (attempt + j) = ClickOutcome.success →
      (∀ i, i < j → clickAt (attempt + i) = ClickOutcome.intercepted) →
      safe_click_go clickAt K remaining attempt = SafeClickResult.ret true := by
  intro j
  induction j with
  | zero =>
    intro remaining attempt hlt hsucc _
    obtain ⟨r, rfl⟩ : ∃ r, remaining = r + 1 :=
      ⟨remaining - 1, by omega⟩
    simp only [Nat.add_zero] at hsucc
    simp only [safe_click_go, hsucc]
  | succ k ih =>
    intro remaining attempt hlt hsucc hpre
    obtain ⟨r, rfl⟩ : ∃ r, remaining = r + 1 :=
      ⟨remaining - 1, by omega⟩
    have h0 : clickAt attempt = ClickOutcome.intercepted := by
      have := hpre 0 (Nat.succ_pos k)
      simpa using this
    simp only [safe_click_go, h0]
    refine ih r (attempt + 1) (by omega) ?_ ?_
    · rw [show attempt + 1 + k = attempt + (k + 1) by omega]
      exact hsucc
    · intro i hi
      rw [show attempt + 1 + i = attempt + (i + 1) by omega]
      exact hpre (i + 1) (by omega)

/-- Claim C1 (amended): for every attempt budget K >= 1, if activating the
target raises ElementClickInterceptedException on the first K-1 attempts
and the click succeeds on attempt K, safe_click returns true; if the
obstruction failure is raised on all K attempts, safe_click returns false
rather than propagating the failure. -/
theorem claim_C1_theorem (clickAt : Nat → ClickOutcome) (K : Nat)
    (hK : 1 ≤ K) :
    ((∀ i, i < K - 1 → clickAt i = ClickOutcome.intercepted) →
      clickAt (K - 1) = ClickOutcome.success →
      safe_click clickAt K = SafeClickResult.ret true) ∧
    ((∀ i, i < K → clickAt i = ClickOutcome.intercepted) →
      safe_click clickAt K = SafeClickResult.ret false) := by
  constructor
  · intro hpre hsucc
    unfold safe_click
    refine safe_click_go_succeeds clickAt K (K - 1) K 0 (by omega) ?_ ?_
    · simpa using hsucc
    · intro i hi
      simpa using hpre i (by omega)
  · intro hall
    unfold safe_click
    refine safe_click_go_all_intercepted clickAt K K 0 ?_
    intro i _ hi2
    exact hall i (by omega)

/-- Claim C1 counterexample: with an attempt budget of 3 and a target
whose activation raises ElementClickInterceptedException on every
attempt, safe_click returns false; the final attempt's failure does not
propagate to the caller. -/
theorem claim_C1_counterexample :
    safe_click (fun _ => ClickOutcome.intercepted) 3 =
      SafeClickResult.ret false ∧
    safe_click (fun _ => ClickOutcome.intercepted) 3 ≠
      SafeClickResult.raises := by
  constructor
  · rfl
  · decide

/-- Witness for claim C1: budget 3, obstruction on attempts 0 and 1 and
success on attempt 2 yields true; obstruction on all attempts yields
false. -/
theorem claim_C1_witness :
    safe_click
      (fun i => if i < 2 then ClickOutcome.intercepted
                else ClickOutcome.success) 3 = SafeClickResult.ret true ∧
    safe_click (fun _ => ClickOutcome.intercepted) 3 =
      SafeClickResult.ret false := by
  constructor
  · refine (claim_C1_theorem _ 3 (by omega)).1 ?_ (by decide)
    intro i hi
    interval_cases i <;> decide
  · exact (claim_C1_theorem _ 3 (by omega)).2 (fun i _ => rfl)

/-- Claim C2: view_first_role is required to leave the original browsing
context active on every exit path; on the failure path where the new
window's address never contains jobs.lever.co, the code instead returns
False with the new window still active. Concretely: one View Role button,
original window 0 the only open window, the click opens window 1, the
URL check fails — afterwards the current window is 1, not the original 0. -/
theorem claim_C2_theorem :
    (view_first_role ⟨1, [0], 0, true, 1, false⟩).returned = false ∧
    (view_first_role ⟨1, [0], 0, true, 1, false⟩).current = 1 ∧
    (view_first_role ⟨1, [0], 0, true, 1, false⟩).current ≠
      (⟨1, [0], 0, true, 1, false⟩ : ViewRoleEnv).current := by
  refine ⟨rfl, rfl, by decide⟩

/-- Claim C3: the stored replica count equals max(1, min(n, 5)) for every
integer input n; in particular 0 yields 1 and 10 yields 5. -/
theorem claim_C3_theorem (n : Int) :
    (KubernetesTestController.init n).node_count = max 1 (min n 5) ∧
    (KubernetesTestController.init 0).node_count = 1 ∧
    (KubernetesTestController.init 10).node_count = 5 :=
  ⟨rfl, by decide, by decide⟩

/-- Claim C10: whenever driver.get returns without raising,
CareersPage.navigate returns true unconditionally (no is-loaded check),
while HomePage.navigate returns the result of its is_loaded landmark
check. -/
theorem claim_C10_theorem (env : NavEnv) (h : env.getRaises = false) :
    CareersPage.navigate env = true ∧
    HomePage.navigate env = HomePage.is_loaded env := by
  obtain ⟨g, l⟩ := env
  cases g
  · exact ⟨rfl, rfl⟩
  · simp at h

/-- Witness for claim C10, at the environment where navigation does not
raise and the landmark never becomes visible: CareersPage.navigate still
returns true while HomePage.navigate returns is_loaded (= false). -/
theorem claim_C10_witness :
    CareersPage.navigate ⟨false, false⟩ = true ∧
    HomePage.navigate ⟨false, false⟩ = HomePage.is_loaded ⟨false, false⟩ :=
  claim_C10_theorem ⟨false, false⟩ rfl

/-- If step i is the first step of the list whose run_test_step result is
false, the case loop stops with result false after executing i+1 steps. -/
theorem runCaseSteps_first_fail :
    ∀ (steps : List TestStep) (i : Nat), i < steps.length →
      (run_test_step (steps.getD i defaultStep)).1 = false →
      (∀ j, j < i → (run_test_step (steps.getD j defaultStep)).1 = true) →
      runCaseSteps steps = (false, i + 1) := by
  intro steps
  induction steps with
  | nil => intro i hi; simp at hi
  | cons s rest ih =>
    intro i hi hfail hpre
    cases i with
    | zero =>
      simp only [List.getD_cons_zero] at hfail
      simp [runCaseSteps, hfail]
    | succ k =>
      have hs : (run_test_step s).1 = true := by
        have h0 := hpre 0 (Nat.succ_pos k)
        simpa using h0
      have hrest := ih k (by simpa using hi)
        (by simpa using hfail)
        (fun j hj => by
          have := hpre (j + 1) (Nat.succ_lt_succ hj)
          simpa using this)
      simp [runCaseSteps, hs, hrest]

/-- If every step of the list passes, the case loop returns true. -/
theorem runCaseSteps_all_pass :
    ∀ (steps : List TestStep),
      (∀ j, j < steps.length →
        (run_test_step (steps.getD j defaultStep)).1 = true) →
      (runCaseSteps steps).1 = true := by
  intro steps
  induction steps with
  | nil => intro _; rfl
  | cons s rest ih =>
    intro h
    have hs : (run_test_step s).1 = true := by
      have h0 := h 0 (Nat.succ_pos _)
      simpa using h0
    have hr := ih (fun j hj => by
      have := h (j + 1) (Nat.succ_lt_succ hj)
      simpa using this)
    simp [runCaseSteps, hs, hr]

/-- Claim C4: for every test case and every sequence of steps, if step i
is the first step reporting failure (false return or raised exception,
both surfacing as a false run_test_step result), the case records the
verdict Failed and exactly the steps up to and including step i execute —
no later step runs. -/
theorem claim_C4_theorem (caseName : String) (steps : List TestStep)
    (results : List (String × TestResult)) (i : Nat)
    (hi : i < steps.length)
    (hfail : (run_test_step (steps.getD i defaultStep)).1 = false)
    (hpre : ∀ j, j < i → (run_test_step (steps.getD j defaultStep)).1 = true) :
    (run_test_case caseName steps results).2 =
      results ++ [(caseName, TestResult.FAILED)] ∧
    (runCaseSteps steps).2 = i + 1 := by
  have h := runCaseSteps_first_fail steps i hi hfail hpre
  constructor
  · simp [run_test_case, h]
  · simp [h]

/-- Witness for claim C4: a three-step case whose second step returns
false records Failed and executes exactly two steps. -/
theorem claim_C4_witness :
    (run_test_case "Homepage Test"
      [⟨"navigate", StepOutcome.ok true, "Navigating to homepage"⟩,
       ⟨"verify", StepOutcome.ok false, "Verifying homepage loaded"⟩,
       ⟨"company_menu", StepOutcome.ok true, "Clicking Company menu"⟩]
      []).2 = [] ++ [("Homepage Test", TestResult.FAILED)] ∧
    (runCaseSteps
      [⟨"navigate", StepOutcome.ok true, "Navigating to homepage"⟩,
       ⟨"verify", StepOutcome.ok false, "Verifying homepage loaded"⟩,
       ⟨"company_menu", StepOutcome.ok true, "Clicking Company menu"⟩]).2 =
      1 + 1 := by
  refine claim_C4_theorem "Homepage Test" _ [] 1 (by decide) (by decide) ?_
  intro j hj
  interval_cases j
  decide

/-- Claim C5: an exception raised by a step's operation is caught inside
run_test_step, logged with the step's description and the exception text,
and converted to a false result; consequently, when the first homepage
step raises, the Homepage Test case records Failed while the run still
executes the QA Jobs Test case and records a verdict for it. -/
theorem claim_C5_theorem (nm desc msg : String) (env : RunEnv)
    (h1 : env.navigate_home = StepOutcome.exn msg) :
    run_test_step ⟨nm, StepOutcome.exn msg, desc⟩ =
      (false, ["Executing step: " ++ desc,
               "Step failed with exception: " ++ desc ++ "\n" ++ msg]) ∧
    (run_tests env).results.getD 0 ("", TestResult.SKIPPED) =
      ("Homepage Test", TestResult.FAILED) ∧
    (run_tests env).results.map Prod.fst =
      ["Homepage Test", "QA Jobs Test"] := by
  have hh : runCaseSteps (homepage_steps env) = (false, 1) := by
    simp [homepage_steps, runCaseSteps, run_test_step, h1]
  refine ⟨rfl, ?_, ?_⟩ <;>
  · simp only [run_tests, test_homepage_loading, test_qa_jobs_filtering,
      run_test_case, hh]
    cases hq : (runCaseSteps (qa_steps env)).1 <;> simp

/-- Witness for claim C5: the run in which the homepage navigation step
raises with message boom. -/
theorem claim_C5_witness :
    run_test_step ⟨"navigate", StepOutcome.exn "boom",
        "Navigating to homepage"⟩ =
      (false, ["Executing step: " ++ "Navigating to homepage",
               "Step failed with exception: " ++ "Navigating to homepage" ++
                 "\n" ++ "boom"]) ∧
    (run_tests envHomeRaises).results.getD 0 ("", TestResult.SKIPPED) =
      ("Homepage Test", TestResult.FAILED) ∧
    (run_tests envHomeRaises).results.map Prod.fst =
      ["Homepage Test", "QA Jobs Test"] :=
  claim_C5_theorem "navigate" "Navigating to homepage" "boom"
    envHomeRaises rfl

/-- Claim C6: for every run environment — however many steps fail or
raise — the session is created before any test case starts, and the
driver is quit exactly once, as the final event of the run. -/
theorem claim_C6_theorem (env : RunEnv) :
    (run_tests env).events.count RunEvent.driverQuit = 1 ∧
    (run_tests env).events.head? = some RunEvent.createDriver ∧
    (run_tests env).events.getLast? = some RunEvent.driverQuit ∧
    (run_tests env).events =
      [RunEvent.createDriver, RunEvent.caseStart "Homepage Test",
       RunEvent.caseStart "QA Jobs Test", RunEvent.driverQuit] := by
  refine ⟨?_, rfl, rfl, rfl⟩
  rfl

/-- Claim C7: for every run environment, the verdict mapping holds
exactly one entry per executed case, keyed by the case names in
execution order. -/
theorem claim_C7_theorem (env : RunEnv) :
    (run_tests env).results.map Prod.fst =
      ["Homepage Test", "QA Jobs Test"] ∧
    (run_tests env).results.length = 2 := by
  cases hc1 : (runCaseSteps (homepage_steps env)).1 <;>
  cases hc2 : (runCaseSteps (qa_steps env)).1 <;>
  simp [run_tests, test_homepage_loading, test_qa_jobs_filtering,
    run_test_case, hc1, hc2]

/-- Claim C9: although TestResult defines SKIPPED, no run ever records
it: every entry of the verdict mapping is PASSED or FAILED. -/
theorem claim_C9_theorem (env : RunEnv) (entry : String × TestResult)
    (h : entry ∈ (run_tests env).results) :
    entry.2 = TestResult.PASSED ∨ entry.2 = TestResult.FAILED := by
  cases hc1 : (runCaseSteps (homepage_steps env)).1 <;>
  cases hc2 : (runCaseSteps (qa_steps env)).1 <;>
  · simp [run_tests, test_homepage_loading, test_qa_jobs_filtering,
      run_test_case, hc1, hc2] at h
    rcases h with h | h <;> rw [h] <;> simp

/-- Witness for claim C9: the all-passing run contains the Homepage Test
entry, and its verdict is PASSED or FAILED (not SKIPPED). -/
theorem claim_C9_witness :
    ("Homepage Test", TestResult.PASSED) ∈ (run_tests envAllPass).results ∧
    (("Homepage Test", TestResult.PASSED).2 = TestResult.PASSED ∨
     ("Homepage Test", TestResult.PASSED).2 = TestResult.FAILED) :=
  ⟨by decide, claim_C9_theorem envAllPass _ (by decide)⟩

/-- Claim C8: if any create-resource call raises ApiException, the
provisioning process terminates with exit status 1, and no create call is
issued twice (no retry). -/
theorem claim_C8_theorem (env : K8sEnv)
    (h : env.chromeDeploymentFails = true ∨ env.chromeServiceFails = true ∨
         env.chromeHPAFails = true ∨ env.seleniumFails = true) :
    (deploy_resources env).1 = DeployOutcome.exited 1 ∧
    (deploy_resources env).2.Nodup := by
  obtain ⟨a, b, c, d⟩ := env
  cases a <;> cases b <;> cases c <;> cases d <;> simp_all <;> decide

/-- Witness for claim C8: the chrome service create call fails; the
process exits with status 1 and each call was attempted at most once. -/
theorem claim_C8_witness :
    (deploy_resources ⟨false, true, false, false⟩).1 =
      DeployOutcome.exited 1 ∧
    (deploy_resources ⟨false, true, false, false⟩).2.Nodup :=
  claim_C8_theorem ⟨false, true, false, false⟩ (Or.inr (Or.inl rfl))
